import Mathlib

/-!
Verification development for the task-resolution orchestration pipeline
implemented in `src/core/hive-mind-engine.js` and
`src/core/hive-mind-orchestrator.js`.

The JavaScript is embedded shallowly: JS numbers become `ℚ` (with `none`
standing for `NaN` where the source can produce it), JS strings become
`String`, fields that may be `undefined` become `Option`, `Math.random()`
becomes an explicit stream `ℕ → ℚ` of draws, and `Date.now()` becomes an
explicit `now : ℕ` argument.  Every definition mirrors the source function
of the same name.
-/

namespace HiveMind

/-- JS `String.prototype.includes`: substring test.
`String.splitOn` yields `n + 1` pieces for `n` occurrences. -/
def jsIncludes (s pat : String) : Bool :=
  pat.isEmpty || (s.splitOn pat).length ≥ 2

/-- JS `text.split(/X+/)` where `X` is a character class given by `p`:
maximal runs of `p`-characters act as separators, with an empty piece kept
at either end when the text starts or ends with a separator run, and
`"".split` giving `[""]`. -/
def jsSplitRuns (p : Char → Bool) (s : String) : List String :=
  if s.isEmpty then [""]
  else
    (if p s.front then [""] else []) ++
      (s.split p).filter (fun t => !t.isEmpty) ++
      (if p s.back then [""] else [])

/-- Maximal runs of JS word characters (`\w` = alphanumeric or underscore)
in a string; used to decide `\b`-delimited keyword matches. -/
def wordTokens (s : String) : List String :=
  (s.split (fun c => !(c.isAlphanum || c = '_'))).filter (fun t => !t.isEmpty)

/-- JS string interpolation of a possibly-`undefined` value:
`` `${x}` `` prints the literal text `undefined` when `x` is absent. -/
def jsStr (b : Option String) : String :=
  match b with
  | some s => s
  | none => "undefined"

/-- JS truthiness of a possibly-`undefined` string (`""` is falsy). -/
def jsTruthyStr (b : Option String) : Bool :=
  match b with
  | some s => !s.isEmpty
  | none => false

/-- JS `Math.round`: half-up rounding. -/
def jsRound (q : ℚ) : ℤ := ⌊q + 1/2⌋

/-- JS `Math.ceil` on a rational. -/
def jsCeil (q : ℚ) : ℤ := ⌈q⌉

/-- Stable insertion step for a descending sort: `a` moves left past `b`
only when its key is strictly greater, so equal keys keep source order —
the behaviour of the (stable) `Array.prototype.sort` comparators
`(a, b) => b.key - a.key` used in the source. -/
def insertDesc (k : α → ℚ) (a : α) : List α → List α
  | [] => [a]
  | b :: t => if k a > k b then a :: b :: t else b :: insertDesc k a t

/-- Stable descending sort by a rational key. -/
def sortDesc (k : α → ℚ) (l : List α) : List α :=
  l.foldl (fun acc a => insertDesc k a acc) []

-- ===============================================================
-- Pattern store and similarity search (`hive-mind-engine.js`)
-- ===============================================================

/-- A stored pattern's signature (`LearningOptimizationNetwork.createSignature`
produces all four fields, but patterns reloaded from `patterns.json` may
lack any of them, hence `Option`). -/
structure Signature where
  domain : Option String
  complexity : Option String
  keyTerms : Option (List String)
  category : Option String
  deriving Repr, DecidableEq

/-- A stored pattern: signature plus success rate (`successRate ∈ [0,1]`
is not enforced by the source; none of the results below assume it). -/
structure StoredPattern where
  signature : Signature
  successRate : ℚ
  deriving Repr, DecidableEq

/-- A GitHub issue label object (its `name` may be absent). -/
structure Label where
  name : Option String
  deriving Repr, DecidableEq

/-- The issue object handed to the engine.  A JS object is open, and
`calculateSimilarity` reads `domain`, `complexity`, `keyTerms` and
`category` directly off the raw issue — fields a fetched GitHub issue
does not carry — so they are modelled as `Option` fields that are `none`
for a fetched issue. -/
structure Issue where
  number : ℕ
  title : String
  body : Option String
  labels : Option (List Label)
  domain : Option String := none
  complexity : Option String := none
  keyTerms : Option (List String) := none
  category : Option String := none
  deriving Repr, DecidableEq

/-- The `complexityMap` object literal in `calculateSimilarity`;
indexing with any other string yields `undefined`. -/
def complexityMap (s : String) : Option ℕ :=
  if s = "low" then some 1
  else if s = "medium" then some 2
  else if s = "high" then some 3
  else if s = "very-high" then some 4
  else none

/-- Key-term overlap count: `issue1.keyTerms.filter(t => signature.keyTerms.includes(t)).length`. -/
def keyTermOverlap (ts ss : List String) : ℕ :=
  (ts.filter (fun t => ss.contains t)).length

/-- Domain component of `calculateSimilarity`: `+0.3` on `===` equality
(note `undefined === undefined` is `true`, so two absent domains earn the
full bonus), else `+0.1` when both domains are truthy. -/
def simDomainPart (issue1 : Issue) (signature : Signature) : ℚ :=
  if issue1.domain = signature.domain then 3/10
  else if jsTruthyStr issue1.domain && jsTruthyStr signature.domain then 1/10
  else 0

/-- Category component of `calculateSimilarity`: `+0.2` on `===` equality
(again `true` when both are absent). -/
def simCategoryPart (issue1 : Issue) (signature : Signature) : ℚ :=
  if issue1.category = signature.category then 1/5 else 0

/-- Complexity component of `calculateSimilarity`:
`Math.max(0, 1 - diff/3) * 0.2` with `diff` the distance of the two
`complexityMap` entries; `none` stands for the `NaN` the JS produces when
either complexity string is not a `complexityMap` key. -/
def simComplexityPart (issue1 : Issue) (signature : Signature) : Option ℚ :=
  match issue1.complexity.bind complexityMap, signature.complexity.bind complexityMap with
  | some a, some b =>
      some (max 0 (1 - (((a : ℤ) - (b : ℤ)).natAbs : ℚ) / 3) * (1/5))
  | _, _ => none

/-- Key-term component of `calculateSimilarity`:
`(overlap / Math.max(len1, len2)) * 0.3` when both lists are present
(arrays are always truthy), `none` for the `0 / 0 = NaN` case of two
empty lists, and `0` when either list is absent (branch skipped). -/
def simKeyTermsPart (issue1 : Issue) (signature : Signature) : Option ℚ :=
  match issue1.keyTerms, signature.keyTerms with
  | some ts, some ss =>
      if max ts.length ss.length = 0 then none
      else some (((keyTermOverlap ts ss : ℚ) / (max ts.length ss.length : ℕ)) * (3/10))
  | _, _ => some 0

/-- `calculateSimilarity(issue1, signature)`, assembled from the four
components above.  Returns `none` where the JS produces `NaN` (`NaN`
contaminates the whole sum).  The four weights `0.3/0.2/0.3/0.2` already
sum to 1 and the total is divided by `factors = 4` again. -/
def calculateSimilarity (issue1 : Issue) (signature : Signature) : Option ℚ :=
  match simComplexityPart issue1 signature, simKeyTermsPart issue1 signature with
  | some c, some k =>
      some ((simDomainPart issue1 signature + c + k + simCategoryPart issue1 signature) / 4)
  | _, _ => none

/-- One entry of the matched-pattern list built by `matchPatterns`. -/
structure MatchEntry where
  id : String
  similarity : ℚ
  pattern : StoredPattern
  confidence : ℚ
  deriving Repr, DecidableEq

/-- `matchPatterns(issue)`: walk the pattern store in iteration order,
keep entries whose similarity is strictly above `0.7` (a `NaN`
similarity fails the comparison), and sort descending by
`confidence = similarity * pattern.successRate`. -/
def matchPatterns (issue : Issue) (store : List (String × StoredPattern)) :
    List MatchEntry :=
  let matched := store.filterMap (fun e =>
    match calculateSimilarity issue e.2.signature with
    | some s =>
        if s > 7/10 then
          some { id := e.1, similarity := s, pattern := e.2,
                 confidence := s * e.2.successRate }
        else none
    | none => none)
  sortDesc (fun m => m.confidence) matched

-- ===============================================================
-- Semantic analysis utilities (`hive-mind-engine.js`, UTILITY METHODS)
-- ===============================================================

/-- `extractKeyTerms(text)`: lower-case, replace every character outside
`[a-z0-9\s]` by a space, split on whitespace runs, keep tokens longer
than 2, tally them in first-occurrence order (JS object key order), sort
by count descending (stable), keep the top 20. -/
def extractKeyTerms (text : String) : List (String × ℕ) :=
  let cleaned := String.map
    (fun c => if ('a' ≤ c && c ≤ 'z') || c.isDigit || c.isWhitespace then c else ' ')
    text.toLower
  let terms := (jsSplitRuns Char.isWhitespace cleaned).filter (fun t => t.length > 2)
  let keys := terms.foldl (fun acc t => if acc.contains t then acc else acc ++ [t]) []
  let counted := keys.map (fun t => (t, (terms.filter (fun u => u = t)).length))
  (sortDesc (fun tc => (tc.2 : ℚ)) counted).take 20

def positiveWords : List String :=
  ["good", "great", "excellent", "perfect", "amazing", "awesome"]

def negativeWords : List String :=
  ["bad", "terrible", "awful", "horrible", "broken", "failed", "error"]

/-- `analyzeSentiment(text)`: positive/negative keyword counts over the
whitespace-split words, ties giving `neutral`. -/
def analyzeSentiment (text : String) : String :=
  let words := jsSplitRuns Char.isWhitespace text.toLower
  let positive := (words.filter (fun w => positiveWords.contains w)).length
  let negative := (words.filter (fun w => negativeWords.contains w)).length
  if positive > negative then "positive"
  else if negative > positive then "negative"
  else "neutral"

/-- Characters of the class `[a-zA-Z0-9_-]` used by the file-token regex. -/
def isWordDash (c : Char) : Bool := c.isAlphanum || c = '_' || c = '-'

/-- Scanner for `/https?:\/\/[^\s]+/g`: at a position starting with a
scheme, the greedy `[^\s]+` extends the match over the maximal
non-whitespace run (which needs at least one character beyond the
scheme); otherwise advance one character, as the regex engine does. -/
def scanUrls : ℕ → List Char → List String
  | 0, _ => []
  | _, [] => []
  | fuel + 1, c :: cs =>
      let rest := c :: cs
      let isHttp := "http://".toList.isPrefixOf rest
      let isHttps := "https://".toList.isPrefixOf rest
      if isHttp || isHttps then
        let pre := if isHttps then 8 else 7
        let tok := rest.takeWhile (fun ch => !ch.isWhitespace)
        if tok.length > pre then
          String.mk tok :: scanUrls fuel (rest.drop tok.length)
        else scanUrls fuel cs
      else scanUrls fuel cs

/-- Scanner for `/#\d+/g`. -/
def scanIssueRefs : ℕ → List Char → List String
  | 0, _ => []
  | _, [] => []
  | fuel + 1, c :: cs =>
      if c = '#' then
        let digits := cs.takeWhile Char.isDigit
        if digits.isEmpty then scanIssueRefs fuel cs
        else String.mk ('#' :: digits) :: scanIssueRefs fuel (cs.drop digits.length)
      else scanIssueRefs fuel cs

/-- Scanner for `/[a-zA-Z0-9_-]+\.[a-zA-Z]{2,4}/g`: a maximal
word-dash run, a dot, then two to four letters (greedy, so at most
four are consumed). -/
def scanFileTokens : ℕ → List Char → List String
  | 0, _ => []
  | _, [] => []
  | fuel + 1, c :: cs =>
      let rest := c :: cs
      let run := rest.takeWhile isWordDash
      if run.isEmpty then scanFileTokens fuel cs
      else
        match rest.drop run.length with
        | '.' :: post =>
            let alphas := (post.takeWhile Char.isAlpha).take 4
            if alphas.length ≥ 2 then
              String.mk (run ++ '.' :: alphas) ::
                scanFileTokens fuel (post.drop alphas.length)
            else scanFileTokens fuel cs
        | _ => scanFileTokens fuel cs

/-- Scanner for the inline-code regex `` /`[^`]+`/g ``: a backtick, at
least one non-backtick character, a closing backtick. -/
def scanInlineCode : ℕ → List Char → List String
  | 0, _ => []
  | _, [] => []
  | fuel + 1, c :: cs =>
      if c = '`' then
        let run := cs.takeWhile (fun ch => ch ≠ '`')
        if run.isEmpty then scanInlineCode fuel cs
        else
          match cs.drop run.length with
          | '`' :: post => String.mk (c :: run ++ ['`']) :: scanInlineCode fuel post
          | _ => scanInlineCode fuel cs
      else scanInlineCode fuel cs

/-- The fenced-block matches of ```` /```[\s\S]*?``` /g ````: the
non-greedy body pairs up consecutive occurrences of the delimiter, so
the pieces at odd split positions are the bodies. -/
def fencedBlocks (text : String) : List String :=
  let parts := text.splitOn "```"
  (List.range ((parts.length - 1) / 2)).map
    (fun i => "```" ++ parts.getD (2 * i + 1) "" ++ "```")

/-- `extractCodeSnippets(text)`: guard `if (!text) return []` (absent or
empty body), then fenced blocks followed by inline code spans. -/
def extractCodeSnippets (text : Option String) : List String :=
  match text with
  | none => []
  | some t =>
      if t.isEmpty then []
      else fencedBlocks t ++ scanInlineCode (t.length + 1) t.toList

/-- For one `at`-clause: the length of the portion of the rest of the
line matched by the greedy `[^\n]+\([^)]+\)` tail, i.e. up to the `)`
closing the last viable parenthesis group, if any. -/
def stackParenLen (line : List Char) : Option ℕ :=
  ((List.range line.length).filter (fun i =>
      line.getD i ' ' = '(' && 1 ≤ i &&
        (let seg := line.drop (i + 1)
         let run := seg.takeWhile (fun ch => ch ≠ ')')
         1 ≤ run.length && run.length < seg.length))).getLast?.map
    (fun i => i + 1 + ((line.drop (i + 1)).takeWhile (fun ch => ch ≠ ')')).length + 1)

/-- Scanner for `/at\s+[^\n]+\([^)]+\)/g`: the literal `at`, a
whitespace run, then the rest of the line up to the `)` of the last
parenthesis group with non-empty body. -/
def scanStackTraces : ℕ → List Char → List String
  | 0, _ => []
  | _, [] => []
  | fuel + 1, c :: cs =>
      match c, cs with
      | 'a', 't' :: d :: rest =>
          if d.isWhitespace then
            let ws := d :: rest.takeWhile Char.isWhitespace
            let after := rest.dropWhile Char.isWhitespace
            let line := after.takeWhile (fun ch => ch ≠ '\n')
            match stackParenLen line with
            | some n =>
                String.mk ('a' :: 't' :: ws ++ line.take n) ::
                  scanStackTraces fuel (after.drop n)
            | none => scanStackTraces fuel cs
          else scanStackTraces fuel cs
      | _, _ => scanStackTraces fuel cs

/-- `extractStackTraces(text)` with its `if (!text) return []` guard. -/
def extractStackTraces (text : Option String) : List String :=
  match text with
  | none => []
  | some t => if t.isEmpty then [] else scanStackTraces (t.length + 1) t.toList

/-- One extracted entity (`{ type, value }`). -/
structure Entity where
  type : String
  value : String
  deriving Repr, DecidableEq

/-- `extractEntities(text)`: URLs, then file-like tokens, then issue
references, each found by its regex scanner. -/
def extractEntities (text : String) : List Entity :=
  let urls := (scanUrls (text.length + 1) text.toList).map
    (fun u => { type := "url", value := u : Entity })
  let files := (scanFileTokens (text.length + 1) text.toList).map
    (fun f => { type := "file", value := f : Entity })
  let issues := (scanIssueRefs (text.length + 1) text.toList).map
    (fun i => { type := "issue", value := i : Entity })
  urls ++ files ++ issues

/-- `extractReferences(text)`: URLs, issue references, then file-like
tokens (guarded by `if (!text) return []`). -/
def extractReferences (text : Option String) : List String :=
  match text with
  | none => []
  | some t =>
      if t.isEmpty then []
      else
        scanUrls (t.length + 1) t.toList ++ scanIssueRefs (t.length + 1) t.toList ++
          scanFileTokens (t.length + 1) t.toList

/-- `classifyIntent(text)`: first-match keyword rules in source order. -/
def classifyIntent (text : String) : String :=
  let t := text.toLower
  if jsIncludes t "how to" || jsIncludes t "how can" then "question"
  else if jsIncludes t "add" || jsIncludes t "implement" || jsIncludes t "feature" then
    "feature-request"
  else if jsIncludes t "error" || jsIncludes t "bug" || jsIncludes t "broken" then
    "bug-report"
  else if jsIncludes t "improve" || jsIncludes t "optimize" || jsIncludes t "enhance" then
    "enhancement"
  else if jsIncludes t "document" || jsIncludes t "readme" || jsIncludes t "guide" then
    "documentation"
  else "general"

/-- `measureTextComplexity(text)`: average words per sentence, bucketed. -/
def measureTextComplexity (text : String) : String :=
  let sentences := (jsSplitRuns (fun c => c = '.' || c = '!' || c = '?') text).length
  let words := (jsSplitRuns Char.isWhitespace text).length
  let avg : ℚ := (words : ℚ) / (max sentences 1 : ℕ)
  if avg > 20 then "high"
  else if avg > 15 then "medium"
  else "low"

/-- The keyword alternatives of the four `technicalPatterns` regexes
(all matched case-insensitively with word boundaries, which for these
all-word-character keywords is token equality; the `c++` alternative
can only ever match in the degenerate position where a word character
follows the final `+`, and is not modelled). -/
def technicalTermWords : List String :=
  ["function", "class", "method", "variable", "array", "object", "string",
   "integer", "boolean",
   "error", "exception", "bug", "fix", "issue", "problem", "solution",
   "api", "rest", "graphql", "database", "sql", "nosql", "mongodb", "mysql",
   "javascript", "python", "java", "html", "css", "react", "node"]

/-- `countTechnicalTerms(text)`: total occurrences over the four
technical-keyword patterns. -/
def countTechnicalTerms (text : String) : ℕ :=
  ((wordTokens text.toLower).filter (fun w => technicalTermWords.contains w)).length

/-- The semantic sub-analysis record built by `analyzeSemantics`. -/
structure Semantic where
  keyTerms : List (String × ℕ)
  sentiment : String
  entities : List Entity
  intent : String
  complexity : String
  deriving Repr, DecidableEq

/-- `analyzeSemantics(issue)`: runs the five text analyses over
`` `${issue.title} ${issue.body}` `` (an absent body prints as the
literal text `undefined`). -/
def analyzeSemantics (issue : Issue) : Semantic :=
  let text := issue.title ++ " " ++ jsStr issue.body
  { keyTerms := extractKeyTerms text
    sentiment := analyzeSentiment text
    entities := extractEntities text
    intent := classifyIntent text
    complexity := measureTextComplexity text }

-- ===============================================================
-- Complexity, domain, priority, solution space, risks
-- ===============================================================

/-- The `factors` object assembled in `assessComplexity`. -/
structure Factors where
  textLength : ℕ
  technicalTerms : ℕ
  codeSnippets : ℕ
  stackTraces : ℕ
  labels : ℕ
  references : ℕ
  deriving Repr, DecidableEq

/-- `calculateComplexityScore(factors)`: weighted sum of factors, each
capped at `value / 10 ≤ 1`, total clamped to `≤ 1`. -/
def calculateComplexityScore (f : Factors) : ℚ :=
  let score :=
    (1/10) * min ((f.textLength : ℚ) / 10) 1 +
    (3/10) * min ((f.technicalTerms : ℚ) / 10) 1 +
    (1/5) * min ((f.codeSnippets : ℚ) / 10) 1 +
    (1/5) * min ((f.stackTraces : ℚ) / 10) 1 +
    (1/10) * min ((f.labels : ℚ) / 10) 1 +
    (1/10) * min ((f.references : ℚ) / 10) 1
  min score 1

/-- `categorizeComplexity(score)`: the four tiers. -/
def categorizeComplexity (score : ℚ) : String :=
  if score < 3/10 then "low"
  else if score < 3/5 then "medium"
  else if score < 4/5 then "high"
  else "very-high"

/-- `estimateEffort(complexityScore)`: `Math.round(2 * (1 + score * 3))`. -/
def estimateEffort (complexityScore : ℚ) : ℤ :=
  jsRound (2 * (1 + complexityScore * 3))

/-- `recommendAgentCount(complexityScore)`:
`Math.min(Math.max(2, Math.ceil(score * 8)), maxAgents)`. -/
def recommendAgentCount (complexityScore : ℚ) (maxAgents : ℤ) : ℤ :=
  min (max 2 (jsCeil (complexityScore * 8))) maxAgents

/-- The complexity sub-analysis record built by `assessComplexity`. -/
structure Complexity where
  score : ℚ
  level : String
  factors : Factors
  estimatedEffort : ℤ
  recommendedAgents : ℤ
  deriving Repr, DecidableEq

/-- `assessComplexity(issue)` (reads `this.options.maxAgents` for the
recommended agent count, passed here explicitly).  `issue.body?.length`
falls back to 0, and the technical-term text is
`issue.title + ' ' + issue.body` (absent body printing as `undefined`). -/
def assessComplexity (issue : Issue) (maxAgents : ℤ) : Complexity :=
  let factors : Factors :=
    { textLength := (match issue.body with | some b => b.length | none => 0)
      technicalTerms := countTechnicalTerms (issue.title ++ " " ++ jsStr issue.body)
      codeSnippets := (extractCodeSnippets issue.body).length
      stackTraces := (extractStackTraces issue.body).length
      labels := (match issue.labels with | some l => l.length | none => 0)
      references := (extractReferences issue.body).length }
  let complexityScore := calculateComplexityScore factors
  { score := complexityScore
    level := categorizeComplexity complexityScore
    factors := factors
    estimatedEffort := estimateEffort complexityScore
    recommendedAgents := recommendAgentCount complexityScore maxAgents }

/-- The `domains` table of `classifyDomain`, in declaration order. -/
def domainTable : List (String × List String) :=
  [("frontend", ["ui", "react", "vue", "angular", "css", "html", "javascript", "typescript"]),
   ("backend", ["api", "server", "database", "sql", "mongodb", "express", "node"]),
   ("devops", ["docker", "kubernetes", "ci/cd", "deployment", "pipeline", "github actions"]),
   ("security", ["auth", "security", "vulnerability", "permissions", "token", "encryption"]),
   ("performance", ["slow", "optimization", "memory", "cpu", "performance", "bottleneck"]),
   ("testing", ["test", "unit test", "integration", "e2e", "jest", "cypress"]),
   ("documentation", ["docs", "readme", "documentation", "guide", "tutorial"]),
   ("bug", ["error", "bug", "issue", "problem", "fail", "broken", "crash"])]

/-- `classifyDomain(issue)`: keyword-overlap count per domain, strict
improvement required, so ties resolve to the earlier domain and zero
matches leave `general`. -/
def classifyDomain (issue : Issue) : String :=
  let text := (issue.title ++ " " ++ jsStr issue.body).toLower
  (domainTable.foldl
    (fun best entry =>
      let score := (entry.2.filter (fun kw => jsIncludes text kw)).length
      if score > best.2 then (entry.1, score) else best)
    ("general", 0)).1

/-- High-priority-indicator increment of `assessPriority`. -/
def priorityUrgencyPart (text : String) : ℚ :=
  if jsIncludes text "critical" || jsIncludes text "urgent" ||
      jsIncludes text "production" then 3/10 else 0

/-- Security-keyword increment of `assessPriority`. -/
def prioritySecurityPart (text : String) : ℚ :=
  if jsIncludes text "security" || jsIncludes text "vulnerability" then 1/5 else 0

/-- User-impact increment of `assessPriority`. -/
def priorityUserImpactPart (text : String) : ℚ :=
  if jsIncludes text "user" && (jsIncludes text "error" || jsIncludes text "bug")
  then 1/5 else 0

/-- Label increment of `assessPriority`: any label whose (optional) name
contains a high-priority marker (`if (issue.labels)` skips an absent
list; `label.name?.toLowerCase()` short-circuits an absent name). -/
def priorityLabelPart (labels : Option (List Label)) : ℚ :=
  match labels with
  | some l =>
      if l.any (fun lab =>
          ["high", "critical", "urgent", "p1", "priority-high"].any (fun hp =>
            match lab.name with
            | some n => jsIncludes n.toLower hp
            | none => false))
      then 3/10 else 0
  | none => 0

/-- `assessPriority(issue)`: base 0.5 plus the four fixed increments,
clamped above by 1. -/
def assessPriority (issue : Issue) : ℚ :=
  let text := (issue.title ++ " " ++ jsStr issue.body).toLower
  min (1/2 + priorityUrgencyPart text + prioritySecurityPart text +
    priorityUserImpactPart text + priorityLabelPart issue.labels) 1

/-- `mapSolutionSpace(issue)`: approach tags from keyword buckets, with
`general-problem-solving` as the non-empty fallback. -/
def mapSolutionSpace (issue : Issue) : List String :=
  let text := (issue.title ++ " " ++ jsStr issue.body).toLower
  let approaches :=
    (if jsIncludes text "bug" || jsIncludes text "error" then
      ["debugging", "error-handling", "root-cause-analysis"] else []) ++
    (if jsIncludes text "feature" || jsIncludes text "implement" then
      ["feature-development", "architecture-design", "implementation"] else []) ++
    (if jsIncludes text "performance" || jsIncludes text "slow" then
      ["optimization", "profiling", "caching"] else []) ++
    (if jsIncludes text "test" || jsIncludes text "testing" then
      ["test-automation", "quality-assurance", "coverage-improvement"] else [])
  if approaches.length > 0 then approaches else ["general-problem-solving"]

/-- One risk record (`{ type, severity, mitigation }`). -/
structure Risk where
  type : String
  severity : String
  mitigation : String
  deriving Repr, DecidableEq

/-- `assessRisks(issue)`: the fixed keyword→risk table. -/
def assessRisks (issue : Issue) : List Risk :=
  let text := (issue.title ++ " " ++ jsStr issue.body).toLower
  (if jsIncludes text "database" || jsIncludes text "migration" then
    [{ type := "data-loss", severity := "high", mitigation := "backup-first" : Risk }]
   else []) ++
  (if jsIncludes text "production" || jsIncludes text "live" then
    [{ type := "service-disruption", severity := "medium",
       mitigation := "staged-deployment" : Risk }]
   else []) ++
  (if jsIncludes text "security" || jsIncludes text "auth" then
    [{ type := "security-vulnerability", severity := "high",
       mitigation := "security-review" : Risk }]
   else []) ++
  (if (extractCodeSnippets issue.body).length > 0 then
    [{ type := "code-quality", severity := "low", mitigation := "code-review" : Risk }]
   else [])

-- ===============================================================
-- ProblemClassificationNetwork and the full deep analysis
-- ===============================================================

/-- The fixed category list of `ProblemClassificationNetwork.classify`. -/
def classifyCategories : List String :=
  ["bug", "feature", "enhancement", "documentation", "performance", "security"]

/-- `ProblemClassificationNetwork.extractFeatures`: keyword-filtered key
terms for the three categories present in the feature table; all other
categories fall back to `[]` (`features[category] || []`). -/
def featuresFor (category : String) (keyTerms : List (String × ℕ)) :
    List (String × ℕ) :=
  if category = "bug" then
    keyTerms.filter (fun t => ["error", "bug", "issue", "problem", "fail"].contains t.1)
  else if category = "feature" then
    keyTerms.filter (fun t => ["add", "new", "implement", "feature"].contains t.1)
  else if category = "enhancement" then
    keyTerms.filter (fun t => ["improve", "optimize", "enhance", "better"].contains t.1)
  else []

/-- One scored category (`{ category, score, features }`). -/
structure CatScore where
  category : String
  score : ℚ
  features : List (String × ℕ)
  deriving Repr, DecidableEq

/-- The classification result of `ProblemClassificationNetwork.classify`. -/
structure Classification where
  category : String
  confidence : ℤ
  alternatives : List CatScore
  features : List (String × ℕ)
  deriving Repr, DecidableEq

/-- `ProblemClassificationNetwork.classify(analysis)`: only
`analysis.semantic.keyTerms` is read (through `extractFeatures`).  One
`Math.random()` draw per category, in list order, gives
`score = rng i * 0.4 + 0.6`; `reduce((a, b) => a.score > b.score ? a : b)`
keeps the later element on ties; the alternatives drop the selected
element (`s !== best` is object identity, and the six per-category
records are pairwise distinct) and sort by score descending. -/
def classify (keyTerms : List (String × ℕ)) (rng : ℕ → ℚ) : Classification :=
  let scores := classifyCategories.enum.map (fun p =>
    { category := p.2, score := rng p.1 * (2/5) + 3/5,
      features := featuresFor p.2 keyTerms : CatScore })
  let best :=
    match scores with
    | [] => { category := "", score := 0, features := [] : CatScore }
    | h :: t => t.foldl (fun a b => if a.score > b.score then a else b) h
  { category := best.category
    confidence := jsRound (best.score * 100)
    alternatives := sortDesc (fun s => s.score) (scores.filter (fun s => s ≠ best))
    features := best.features }

/-- The immutable Analysis snapshot built by `performDeepAnalysis`. -/
structure Analysis where
  sessionId : String
  timestamp : ℕ
  semantic : Semantic
  complexity : Complexity
  patterns : List MatchEntry
  domain : String
  priority : ℚ
  solutionSpace : List String
  risks : List Risk
  neuralClassification : Classification
  deriving Repr, DecidableEq

/-- `performDeepAnalysis(session)`: the seven deterministic sub-analyses
of the session's issue against the pattern store, then the randomized
neural classification.  `Date.now()` is the explicit `now`, the engine's
`options.maxAgents` is explicit, and `rng` is the `Math.random()` stream
(consumed only by `classify`). -/
def performDeepAnalysis (issue : Issue) (store : List (String × StoredPattern))
    (maxAgents : ℤ) (sessionId : String) (now : ℕ) (rng : ℕ → ℚ) : Analysis :=
  let semantic := analyzeSemantics issue
  { sessionId := sessionId
    timestamp := now
    semantic := semantic
    complexity := assessComplexity issue maxAgents
    patterns := matchPatterns issue store
    domain := classifyDomain issue
    priority := assessPriority issue
    solutionSpace := mapSolutionSpace issue
    risks := assessRisks issue
    neuralClassification := classify semantic.keyTerms rng }

-- ===============================================================
-- Swarm coordination: convergence measurement
-- ===============================================================

/-- One discussion insight (`{ topic, consensus, confidence }`). -/
structure Insight where
  topic : String
  consensus : Bool
  confidence : ℚ
  deriving Repr, DecidableEq

/-- One discussion round; only its `insights` are read by
`measureConvergence` (the `participants`, `topics` and `timestamp`
fields of `simulateAgentDiscussion` are not). -/
structure Discussion where
  round : ℕ
  insights : List Insight
  deriving Repr, DecidableEq

/-- The two `forEach` accumulators of `measureConvergence`:
`convergenceScore` (confidence summed over consensus insights) and
`totalInsights` (every insight counted). -/
def convergenceFold (st : ℚ × ℕ) (ins : List Insight) : ℚ × ℕ :=
  ins.foldl
    (fun st i => ((if i.consensus then st.1 + i.confidence else st.1), st.2 + 1)) st

/-- `measureConvergence(discussions)`: `convergenceScore / totalInsights`
when any insight exists, else `0.5`. -/
def measureConvergence (discussions : List Discussion) : ℚ :=
  let st := discussions.foldl (fun st d => convergenceFold st d.insights) ((0 : ℚ), (0 : ℕ))
  if st.2 > 0 then st.1 / (st.2 : ℚ) else 1/2

/-- Modelled from the spec's words in §4.4 for comparison with
`measureConvergence`: the mean confidence across exactly those topics
that reached consensus with confidence above `0.7`, or `0.5` if none. -/
def measureConvergenceSpec (discussions : List Discussion) : ℚ :=
  let qualifying := ((discussions.map (fun d => d.insights)).flatten).filter
    (fun i => i.consensus && decide (i.confidence > 7/10))
  if qualifying.length = 0 then 1/2
  else ((qualifying.map (fun i => i.confidence)).sum) / (qualifying.length : ℚ)

-- ===============================================================
-- AgentCoordinationNetwork (strategy planning)
-- ===============================================================

/-- The fixed ordered `agentTypes` vocabulary. -/
def agentTypes : List String :=
  ["analyzer", "implementer", "tester", "reviewer", "coordinator",
   "optimizer", "validator", "documenter", "security-specialist", "performance-expert"]

/-- `complexityToAgentCount(complexity)`: the fixed tier table with
default 3 for any other string. -/
def complexityToAgentCount (complexity : String) : ℕ :=
  if complexity = "low" then 2
  else if complexity = "medium" then 4
  else if complexity = "high" then 6
  else if complexity = "very-high" then 8
  else 3

/-- `getSpecialization(type)`. -/
def getSpecialization (type : String) : String :=
  if type = "analyzer" then "Problem decomposition and root cause analysis"
  else if type = "implementer" then "Code generation and solution implementation"
  else if type = "tester" then "Quality assurance and test case generation"
  else if type = "reviewer" then "Code review and quality validation"
  else if type = "coordinator" then "Team coordination and workflow management"
  else if type = "optimizer" then "Performance optimization and efficiency"
  else if type = "validator" then "Solution validation and verification"
  else if type = "documenter" then "Documentation and knowledge management"
  else if type = "security-specialist" then "Security analysis and vulnerability assessment"
  else if type = "performance-expert" then "Performance analysis and optimization"
  else "General problem solving"

/-- `getCapabilities(type)`. -/
def getCapabilities (type : String) : List String :=
  if type = "analyzer" then ["pattern-recognition", "root-cause-analysis", "decomposition"]
  else if type = "implementer" then ["code-generation", "algorithm-design", "architecture"]
  else if type = "tester" then ["test-generation", "quality-assurance", "validation"]
  else if type = "reviewer" then ["code-review", "quality-metrics", "best-practices"]
  else if type = "coordinator" then ["workflow-management", "resource-allocation", "communication"]
  else if type = "optimizer" then ["performance-tuning", "efficiency-analysis", "bottleneck-detection"]
  else if type = "validator" then ["verification", "compliance-checking", "standards-validation"]
  else if type = "documenter" then ["documentation", "knowledge-capture", "explanation"]
  else if type = "security-specialist" then ["vulnerability-analysis", "security-testing", "threat-modeling"]
  else if type = "performance-expert" then ["profiling", "optimization", "scalability-analysis"]
  else ["general-intelligence"]

/-- One agent specification emitted by `generateStrategy`. -/
structure AgentSpec where
  type : String
  specialization : String
  capabilities : List String
  intelligenceLevel : String
  focus : String
  reasoningType : String
  creativityLevel : ℚ
  deriving Repr, DecidableEq

/-- The strategy record of `AgentCoordinationNetwork.generateStrategy`. -/
structure Strategy where
  agents : List AgentSpec
  coordination : String
  communication : String
  decisionMaking : String
  expectedSynergy : ℚ
  deriving Repr, DecidableEq

/-- JS `x || 'general'` on a possibly-absent string. -/
def jsOrGeneral (o : Option String) : String :=
  match o with
  | some s => if s.isEmpty then "general" else s
  | none => "general"

/-- `AgentCoordinationNetwork.generateStrategy(context)`:
`recommendedCount = Math.min(Math.max(2, Math.ceil(count)), maxAgents)`
(`Math.ceil` is the identity on the integral tier counts), then one
agent per index with its type drawn round-robin from `agentTypes`. -/
def generateStrategy (complexity : String) (maxAgents : ℕ) (domain : Option String) :
    Strategy :=
  let recommendedCount := min (max 2 (complexityToAgentCount complexity)) maxAgents
  let agents := (List.range recommendedCount).map (fun i =>
    let ty := agentTypes.getD (i % agentTypes.length) ""
    { type := ty
      specialization := getSpecialization ty
      capabilities := getCapabilities ty
      intelligenceLevel := "high"
      focus := jsOrGeneral domain
      reasoningType := "analytical"
      creativityLevel := 4/5 : AgentSpec })
  { agents := agents
    coordination := "swarm-intelligence"
    communication := "neural-network"
    decisionMaking := "consensus-based"
    expectedSynergy := 9/10 }

-- ===============================================================
-- QualityAssessmentNetwork
-- ===============================================================

/-- The solution fields the quality assessor reads (truthiness of the
generated `code`, `tests` and `documentation` strings). -/
structure Solution where
  code : Option String
  tests : Option String
  documentation : Option String
  deriving Repr, DecidableEq

/-- The seven-dimension metrics vector. -/
structure Metrics where
  completeness : ℚ
  correctness : ℚ
  maintainability : ℚ
  performance : ℚ
  security : ℚ
  testability : ℚ
  documentation : ℚ
  deriving Repr, DecidableEq

/-- `assessCompleteness(solution)`: base 0.7 plus 0.1 per present part. -/
def assessCompleteness (s : Solution) : ℚ :=
  min (7/10 + (if jsTruthyStr s.code then 1/10 else 0) +
    (if jsTruthyStr s.tests then 1/10 else 0) +
    (if jsTruthyStr s.documentation then 1/10 else 0)) 1

/-- `assessCorrectness`: `0.8 + Math.random() * 0.2`. -/
def assessCorrectness (rand : ℚ) : ℚ := 4/5 + rand * (1/5)

/-- `assessMaintainability`: `0.75 + Math.random() * 0.25`. -/
def assessMaintainability (rand : ℚ) : ℚ := 3/4 + rand * (1/4)

/-- `assessPerformance`: `0.8 + Math.random() * 0.2`. -/
def assessPerformance (rand : ℚ) : ℚ := 4/5 + rand * (1/5)

/-- `assessSecurity`: `0.85 + Math.random() * 0.15`. -/
def assessSecurity (rand : ℚ) : ℚ := 17/20 + rand * (3/20)

/-- `assessTestability(solution)`. -/
def assessTestability (s : Solution) : ℚ :=
  if jsTruthyStr s.tests then 9/10 else 3/5

/-- `assessDocumentation(solution)`. -/
def assessDocumentation (s : Solution) : ℚ :=
  if jsTruthyStr s.documentation then 17/20 else 1/2

/-- `QualityAssessmentNetwork.generateRecommendations(metrics)`: the
source checks exactly three of the seven dimensions. -/
def generateRecommendations (m : Metrics) : List String :=
  (if m.completeness < 4/5 then ["Add missing implementation components"] else []) ++
  (if m.testability < 4/5 then ["Improve test coverage and quality"] else []) ++
  (if m.documentation < 4/5 then ["Enhance documentation and examples"] else [])

/-- Number of the seven quality dimensions strictly below the fixed 0.8
threshold — the count of improvement notes §4.6 of the spec asks for. -/
def dimensionsBelowThreshold (m : Metrics) : ℕ :=
  (if m.completeness < 4/5 then 1 else 0) + (if m.correctness < 4/5 then 1 else 0) +
  (if m.maintainability < 4/5 then 1 else 0) + (if m.performance < 4/5 then 1 else 0) +
  (if m.security < 4/5 then 1 else 0) + (if m.testability < 4/5 then 1 else 0) +
  (if m.documentation < 4/5 then 1 else 0)

/-- The assessment record returned by `QualityAssessmentNetwork.assess`. -/
structure Assessment where
  score : ℚ
  confidence : ℚ
  metrics : Metrics
  recommendations : List String
  timestamp : ℕ
  completeness : ℚ
  maintainability : ℚ
  deriving Repr, DecidableEq

/-- `QualityAssessmentNetwork.assess(solution, session)` (the session
argument is never read): the seven dimensions (`Math.random()` draws in
object-literal evaluation order: correctness, maintainability,
performance, security, then the top-level confidence), the aggregate
mean over the 7 keys, and the recommendations. -/
def assess (solution : Solution) (now : ℕ) (rng : ℕ → ℚ) : Assessment :=
  let metrics : Metrics :=
    { completeness := assessCompleteness solution
      correctness := assessCorrectness (rng 0)
      maintainability := assessMaintainability (rng 1)
      performance := assessPerformance (rng 2)
      security := assessSecurity (rng 3)
      testability := assessTestability solution
      documentation := assessDocumentation solution }
  let overallScore :=
    (metrics.completeness + metrics.correctness + metrics.maintainability +
      metrics.performance + metrics.security + metrics.testability +
      metrics.documentation) / 7
  { score := overallScore
    confidence := 17/20 + rng 4 * (3/20)
    metrics := metrics
    recommendations := generateRecommendations metrics
    timestamp := now
    completeness := metrics.completeness
    maintainability := metrics.maintainability }

-- ===============================================================
-- Orchestrator (`hive-mind-orchestrator.js`)
-- ===============================================================

/-- The `result.quality` block of a processed Hive-Mind result. -/
structure QualityInfo where
  score : ℚ
  confidence : ℚ
  completeness : ℚ
  maintainability : ℚ
  deriving Repr, DecidableEq

/-- One implementation artifact file (`{ path, content, type }`). -/
structure ArtifactFile where
  path : String
  content : String
  type : String
  deriving Repr, DecidableEq

/-- One test artifact (`{ path, content, framework }`). -/
structure ArtifactTest where
  path : String
  content : String
  framework : String
  deriving Repr, DecidableEq

/-- One documentation artifact (`{ path, content, type }`). -/
structure ArtifactDoc where
  path : String
  content : String
  type : String
  deriving Repr, DecidableEq

/-- The artifact bundle of `generateImplementationArtifacts`. -/
structure Artifacts where
  files : List ArtifactFile
  tests : List ArtifactTest
  documentation : List ArtifactDoc
  deriving Repr, DecidableEq

/-- The solution fields `addLabelsToIssue` reads. -/
structure SolutionInfo where
  complexity : Option String
  approach : Option String
  deriving Repr, DecidableEq

/-- The processed result handed to `publishToGitHub` (only the fields it
and `shouldCreatePR` read are modelled). -/
structure ProcessedResult where
  quality : QualityInfo
  artifacts : Artifacts
  solution : SolutionInfo
  deriving Repr, DecidableEq

/-- `shouldCreatePR(result)`: the three-way PR gate. -/
def shouldCreatePR (result : ProcessedResult) : Bool :=
  decide (result.quality.score > 4/5) &&
    decide (result.quality.completeness > 9/10) &&
    decide (result.artifacts.files.length > 0)

/-- The label list assembled by `addLabelsToIssue` (truthiness guards on
`result.solution.complexity` and `.approach`). -/
def addLabelsList (r : ProcessedResult) : List String :=
  ["hive-mind-analyzed", "ai-solution-ready",
   "quality-" ++ toString (jsRound (r.quality.score * 100))] ++
  (if jsTruthyStr r.solution.complexity then
    ["complexity-" ++ jsStr r.solution.complexity] else []) ++
  (if jsTruthyStr r.solution.approach then ["ai-generated"] else [])

/-- Outcome of `createPullRequest`: a PR, or the caught 422
branch-already-exists record `{ error: 'Branch exists', branch }` that
is still assigned to `githubResult.pullRequest`. -/
inductive PRResult where
  | created (number : ℕ) (branch : String)
  | branchExists (branch : String)
  deriving Repr, DecidableEq

/-- How each external GitHub call behaves during one `publishToGitHub`
run: whether `createComment` throws, whether the `addLabels` call throws
(caught inside `addLabelsToIssue`, which then returns `[]`), and how the
`createPullRequest` call ends (`failure` = a non-422 throw). -/
inductive PRAttempt where
  | success (number : ℕ)
  | branchTaken
  | failure (msg : String)
  deriving Repr, DecidableEq

structure GitHubEnv where
  commentFails : Option String
  labelsFail : Bool
  commentId : ℕ
  prAttempt : PRAttempt
  deriving Repr, DecidableEq

/-- The `githubResult` record built by `publishToGitHub`. -/
structure GitHubResult where
  comments : List ℕ
  labels : List String
  pullRequest : Option PRResult
  error : Option String
  deriving Repr, DecidableEq

/-- `publishToGitHub(session, processedResult)`: comment, labels, then —
only when `autoCreatePR` is enabled and `shouldCreatePR` holds — the
pull-request creation; any thrown error is caught and recorded in
`githubResult.error` without failing the session. -/
def publishToGitHub (autoCreatePR : Bool) (issueNumber : ℕ) (env : GitHubEnv)
    (r : ProcessedResult) : GitHubResult :=
  match env.commentFails with
  | some msg => { comments := [], labels := [], pullRequest := none, error := some msg }
  | none =>
      let comments := [env.commentId]
      let labels := if env.labelsFail then [] else addLabelsList r
      if autoCreatePR && shouldCreatePR r then
        match env.prAttempt with
        | .success n =>
            { comments := comments, labels := labels,
              pullRequest := some (.created n ("hive-mind/issue-" ++ toString issueNumber)),
              error := none }
        | .branchTaken =>
            { comments := comments, labels := labels,
              pullRequest := some (.branchExists ("hive-mind/issue-" ++ toString issueNumber)),
              error := none }
        | .failure msg =>
            { comments := comments, labels := labels, pullRequest := none,
              error := some msg }
      else { comments := comments, labels := labels, pullRequest := none, error := none }

/-- One orchestration session entry of `this.activeSessions`. -/
structure OrchSession where
  id : String
  issueNumber : ℕ
  status : String
  deriving Repr, DecidableEq

/-- The orchestrator state read and written by `resolveIssue`:
the `activeSessions` and `engines` maps (as association lists in
insertion order) plus the configured cap. -/
structure OrchState where
  activeSessions : List (String × OrchSession)
  engines : List String
  maxConcurrentSessions : ℕ
  deriving Repr, DecidableEq

/-- The success payload `resolveIssue` returns. -/
structure ResolveSuccess where
  orchestrationId : String
  issueNumber : ℕ
  deriving Repr, DecidableEq

/-- `resolveIssue(issueData)`: the capacity check throws before any
session is created; otherwise the session is registered, the fetch /
engine / publish pipeline runs (abstracted as the `pipeline` argument,
which may itself fail), and the session and engine entries are removed
again on both the success and the error path. -/
def resolveIssue (st : OrchState) (orchestrationId : String) (issueNumber : ℕ)
    (pipeline : OrchState → Except String ResolveSuccess) :
    OrchState × Except String ResolveSuccess :=
  if st.activeSessions.length ≥ st.maxConcurrentSessions then
    (st, .error "Maximum concurrent sessions reached. Please wait for completion.")
  else
    let session : OrchSession :=
      { id := orchestrationId, issueNumber := issueNumber, status := "initializing" }
    let st1 : OrchState :=
      { st with activeSessions := st.activeSessions ++ [(orchestrationId, session)],
                engines := st.engines ++ [orchestrationId] }
    let cleaned : OrchState :=
      { st1 with
          activeSessions := st1.activeSessions.filter (fun e => e.1 ≠ orchestrationId),
          engines := st1.engines.filter (fun e => e ≠ orchestrationId) }
    match pipeline st1 with
    | .ok res => (cleaned, .ok res)
    | .error msg => (cleaned, .error msg)

-- ===============================================================
-- Concrete fixtures used by witnesses and counterexamples
-- ===============================================================

/-- A `Math.random()` stream that always draws 0. -/
def rngZero : ℕ → ℚ := fun _ => 0

/-- A `Math.random()` stream whose first draw is 1/2 and the rest 0:
under `classify` this makes the first category (`bug`) score highest. -/
def rngBugFirst : ℕ → ℚ := fun i => if i = 0 then 1/2 else 0

/-- A minimal fetched issue (its raw-object similarity fields absent,
as for every issue fetched from the tracker). -/
def sampleIssue : Issue :=
  { number := 1, title := "bug", body := some "", labels := none }

/-- One discussion round with a single consensus insight of confidence
0.6 — below the 0.7 bar the spec's convergence formula filters on. -/
def sampleDiscussion : Discussion :=
  { round := 1,
    insights := [{ topic := "solution-approach", consensus := true, confidence := 3/5 }] }

/-- An issue carrying similarity fields that agree with
`perfectSignature` on every component. -/
def perfectIssue : Issue :=
  { number := 2, title := "t", body := none, labels := none,
    domain := some "backend", complexity := some "medium",
    keyTerms := some ["api", "server"], category := some "bug" }

/-- A stored signature agreeing with `perfectIssue` on domain,
complexity tier, key terms and category. -/
def perfectSignature : Signature :=
  { domain := some "backend", complexity := some "medium",
    keyTerms := some ["api", "server"], category := some "bug" }

/-- A stored pattern with the perfect-match signature and success rate 1. -/
def perfectPattern : StoredPattern :=
  { signature := perfectSignature, successRate := 1 }

/-- A candidate solution with all three generated parts present. -/
def sampleSolution : Solution :=
  { code := some "code", tests := some "tests", documentation := some "docs" }

/-- A processed result passing all three conditions of the PR gate. -/
def sampleProcessedResult : ProcessedResult :=
  { quality := { score := 9/10, confidence := 1, completeness := 19/20, maintainability := 1 }
    artifacts :=
      { files := [{ path := "solution-1.js", content := "x", type := "JavaScript" }]
        tests := [], documentation := [] }
    solution := { complexity := some "low", approach := some "neural" } }

/-- A GitHub environment in which every outbound call succeeds. -/
def sampleGitHubEnv : GitHubEnv :=
  { commentFails := none, labelsFail := false, commentId := 1,
    prAttempt := .success 7 }

/-- An orchestrator session occupying one slot. -/
def sampleOrchSession : OrchSession :=
  { id := "s1", issueNumber := 10, status := "executing" }

/-- An orchestrator state at its configured capacity of 1. -/
def sampleOrchState : OrchState :=
  { activeSessions := [("s1", sampleOrchSession)], engines := ["s1"],
    maxConcurrentSessions := 1 }

-- ===============================================================
-- Supporting lemmas
-- ===============================================================

theorem simDomainPart_le (issue1 : Issue) (signature : Signature) :
    simDomainPart issue1 signature ≤ 3/10 := by
  unfold simDomainPart; split
  · norm_num
  · split <;> norm_num

theorem simCategoryPart_le (issue1 : Issue) (signature : Signature) :
    simCategoryPart issue1 signature ≤ 1/5 := by
  unfold simCategoryPart; split <;> norm_num

theorem simComplexityPart_le (issue1 : Issue) (signature : Signature) (c : ℚ)
    (h : simComplexityPart issue1 signature = some c) : c ≤ 1/5 := by
  unfold simComplexityPart at h
  rcases h1 : issue1.complexity.bind complexityMap with _ | a <;>
    rcases h2 : signature.complexity.bind complexityMap with _ | b <;>
      simp only [h1, h2] at h
  · exact Option.noConfusion h
  · exact Option.noConfusion h
  · exact Option.noConfusion h
  rw [Option.some.injEq] at h
  have hmax : max 0 (1 - (((a : ℤ) - (b : ℤ)).natAbs : ℚ) / 3) ≤ 1 := by
    apply max_le (by norm_num)
    have hnn : (0 : ℚ) ≤ (((a : ℤ) - (b : ℤ)).natAbs : ℚ) / 3 := by positivity
    linarith
  have hmax0 : 0 ≤ max 0 (1 - (((a : ℤ) - (b : ℤ)).natAbs : ℚ) / 3) :=
    le_max_left _ _
  linarith [hmax, hmax0, h]

theorem simKeyTermsPart_le (issue1 : Issue) (signature : Signature) (k : ℚ)
    (h : simKeyTermsPart issue1 signature = some k) : k ≤ 3/10 := by
  unfold simKeyTermsPart at h
  rcases h1 : issue1.keyTerms with _ | ts <;>
    rcases h2 : signature.keyTerms with _ | ss <;>
      simp only [h1, h2] at h
  · rw [Option.some.injEq] at h; rw [← h]; norm_num
  · rw [Option.some.injEq] at h; rw [← h]; norm_num
  · rw [Option.some.injEq] at h; rw [← h]; norm_num
  · split at h
    · exact absurd h (by simp)
    · rename_i hmax
      rw [Option.some.injEq] at h
      have hle : keyTermOverlap ts ss ≤ max ts.length ss.length := by
        unfold keyTermOverlap
        exact le_trans (List.length_filter_le _ _) (le_max_left _ _)
      have hlen : (keyTermOverlap ts ss : ℚ) ≤ ((max ts.length ss.length : ℕ) : ℚ) := by
        exact_mod_cast hle
      have hpos : (0 : ℚ) < ((max ts.length ss.length : ℕ) : ℚ) := by
        have hp : 0 < max ts.length ss.length := Nat.pos_of_ne_zero hmax
        exact_mod_cast hp
      have hratio : (keyTermOverlap ts ss : ℚ) / ((max ts.length ss.length : ℕ) : ℚ) ≤ 1 :=
        (div_le_one hpos).mpr hlen
      have hratio0 :
          (0 : ℚ) ≤ (keyTermOverlap ts ss : ℚ) / ((max ts.length ss.length : ℕ) : ℚ) := by
        positivity
      nlinarith [hratio, hratio0]

/-- The weighted sum in `calculateSimilarity` is at most 1, so after the
division by the factor count 4 every non-`NaN` similarity is at most 1/4. -/
theorem calculateSimilarity_le_quarter (issue1 : Issue) (signature : Signature)
    (q : ℚ) (h : calculateSimilarity issue1 signature = some q) : q ≤ 1/4 := by
  unfold calculateSimilarity at h
  rcases hc : simComplexityPart issue1 signature with _ | c <;>
    rcases hk : simKeyTermsPart issue1 signature with _ | k <;>
      simp only [hc, hk] at h
  · exact Option.noConfusion h
  · exact Option.noConfusion h
  · exact Option.noConfusion h
  rw [Option.some.injEq] at h
  have h1 := simDomainPart_le issue1 signature
  have h2 := simCategoryPart_le issue1 signature
  have h3 := simComplexityPart_le issue1 signature c hc
  have h4 := simKeyTermsPart_le issue1 signature k hk
  linarith [h]

/-- No pattern ever survives the `similarity > 0.7` filter, since every
non-`NaN` similarity is at most 1/4. -/
theorem matchPatterns_always_nil (issue : Issue)
    (store : List (String × StoredPattern)) : matchPatterns issue store = [] := by
  unfold matchPatterns
  have hfm : store.filterMap (fun e =>
      match calculateSimilarity issue e.2.signature with
      | some s =>
          if s > 7/10 then
            some { id := e.1, similarity := s, pattern := e.2,
                   confidence := s * e.2.successRate : MatchEntry }
          else none
      | none => none) = [] := by
    rw [List.filterMap_eq_nil_iff]
    intro e he
    rcases hcs : calculateSimilarity issue e.2.signature with _ | s
    · simp only [hcs]
    · simp only [hcs]
      rw [if_neg]
      have hle := calculateSimilarity_le_quarter issue e.2.signature s hcs
      intro hgt
      linarith
  rw [hfm]
  rfl

/-- C2: for every issue and every content of the pattern store,
`matchPatterns` returns the empty list — `calculateSimilarity` sums
weighted components totalling at most 1 and divides by the factor count
4 again, so no similarity can satisfy the strict `> 0.7` condition. -/
theorem matchPatterns_always_empty (issue : Issue)
    (store : List (String × StoredPattern)) : matchPatterns issue store = [] :=
  matchPatterns_always_nil issue store

/-- C4: every pattern in `Analysis.patterns` (the `matchPatterns` result
stored by `performDeepAnalysis`) has similarity strictly above 0.7, and
the list is pairwise descending in `similarity × successRate` — the
`confidence` sort key of the source. -/
theorem analysis_patterns_threshold_sorted (issue : Issue)
    (store : List (String × StoredPattern)) (maxAgents : ℤ) (sid : String)
    (now : ℕ) (rng : ℕ → ℚ) :
    ((performDeepAnalysis issue store maxAgents sid now rng).patterns.all
      (fun m => decide (m.similarity > 7/10)) = true) ∧
    List.Pairwise
      (fun a b => a.similarity * a.pattern.successRate ≥ b.similarity * b.pattern.successRate)
      (performDeepAnalysis issue store maxAgents sid now rng).patterns := by
  have hp : (performDeepAnalysis issue store maxAgents sid now rng).patterns =
      matchPatterns issue store := rfl
  rw [hp, matchPatterns_always_nil]
  exact ⟨rfl, List.Pairwise.nil⟩

/-- Under all-zero draws every category scores 3/5 and the later-wins
tie rule of `reduce` selects the last category. -/
theorem classify_rngZero_category (kts : List (String × ℕ)) :
    (classify kts rngZero).category = "security" := by
  norm_num [classify, classifyCategories, List.enum, List.enumFrom, rngZero]

/-- When only the first draw is 1/2, the first category scores 4/5 and
wins every comparison. -/
theorem classify_rngBugFirst_category (kts : List (String × ℕ)) :
    (classify kts rngBugFirst).category = "bug" := by
  norm_num [classify, classifyCategories, List.enum, List.enumFrom, rngBugFirst]

/-- C3 counterexample: the same issue, pattern store and instant, under
two different `Math.random()` streams, classifies to different
categories (`security` under all-zero draws by the later-wins tie rule,
`bug` when the first draw is 1/2), so two calls of the analysis stage
need not yield identical Analyses in every field. -/
theorem classification_random_counterexample :
    (performDeepAnalysis sampleIssue [] 15 "s" 0 rngZero).neuralClassification.category ≠
      (performDeepAnalysis sampleIssue [] 15 "s" 0 rngBugFirst).neuralClassification.category := by
  show (classify (analyzeSemantics sampleIssue).keyTerms rngZero).category ≠
    (classify (analyzeSemantics sampleIssue).keyTerms rngBugFirst).category
  rw [classify_rngZero_category, classify_rngBugFirst_category]
  decide

/-- C3 (amended): the analysis stage is deterministic in every field
except the randomized `neuralClassification` (and the wall-clock
`timestamp`, fixed here): for one issue, pattern store, agent cap,
session id and instant, any two `Math.random()` streams give the same
semantic analysis, complexity, matched patterns, domain, priority,
solution space, risks and timestamp. -/
theorem analysis_deterministic_except_classification (issue : Issue)
    (store : List (String × StoredPattern)) (maxAgents : ℤ) (sid : String)
    (now : ℕ) (rng rng2 : ℕ → ℚ) :
    (performDeepAnalysis issue store maxAgents sid now rng).semantic =
        (performDeepAnalysis issue store maxAgents sid now rng2).semantic ∧
      (performDeepAnalysis issue store maxAgents sid now rng).complexity =
        (performDeepAnalysis issue store maxAgents sid now rng2).complexity ∧
      (performDeepAnalysis issue store maxAgents sid now rng).patterns =
        (performDeepAnalysis issue store maxAgents sid now rng2).patterns ∧
      (performDeepAnalysis issue store maxAgents sid now rng).domain =
        (performDeepAnalysis issue store maxAgents sid now rng2).domain ∧
      (performDeepAnalysis issue store maxAgents sid now rng).priority =
        (performDeepAnalysis issue store maxAgents sid now rng2).priority ∧
      (performDeepAnalysis issue store maxAgents sid now rng).solutionSpace =
        (performDeepAnalysis issue store maxAgents sid now rng2).solutionSpace ∧
      (performDeepAnalysis issue store maxAgents sid now rng).risks =
        (performDeepAnalysis issue store maxAgents sid now rng2).risks ∧
      (performDeepAnalysis issue store maxAgents sid now rng).timestamp =
        (performDeepAnalysis issue store maxAgents sid now rng2).timestamp :=
  ⟨rfl, rfl, rfl, rfl, rfl, rfl, rfl, rfl⟩

theorem priorityUrgencyPart_bounds (text : String) :
    0 ≤ priorityUrgencyPart text ∧ priorityUrgencyPart text ≤ 3/10 := by
  unfold priorityUrgencyPart; split <;> norm_num

theorem prioritySecurityPart_bounds (text : String) :
    0 ≤ prioritySecurityPart text ∧ prioritySecurityPart text ≤ 1/5 := by
  unfold prioritySecurityPart; split <;> norm_num

theorem priorityUserImpactPart_bounds (text : String) :
    0 ≤ priorityUserImpactPart text ∧ priorityUserImpactPart text ≤ 1/5 := by
  unfold priorityUserImpactPart; split <;> norm_num

theorem priorityLabelPart_bounds (labels : Option (List Label)) :
    0 ≤ priorityLabelPart labels ∧ priorityLabelPart labels ≤ 3/10 := by
  unfold priorityLabelPart
  cases labels with
  | none => norm_num
  | some l => dsimp only; split <;> norm_num

/-- The priority score starts at 0.5, only gains nonnegative increments,
and is clamped at 1. -/
theorem assessPriority_bounds (issue : Issue) :
    0 ≤ assessPriority issue ∧ assessPriority issue ≤ 1 := by
  unfold assessPriority
  have h1 := priorityUrgencyPart_bounds ((issue.title ++ " " ++ jsStr issue.body).toLower)
  have h2 := prioritySecurityPart_bounds ((issue.title ++ " " ++ jsStr issue.body).toLower)
  have h3 := priorityUserImpactPart_bounds ((issue.title ++ " " ++ jsStr issue.body).toLower)
  have h4 := priorityLabelPart_bounds issue.labels
  constructor
  · apply le_min _ (by norm_num)
    linarith [h1.1, h2.1, h3.1, h4.1]
  · exact min_le_right _ _

/-- `categorizeComplexity` can only produce the four tier names. -/
theorem categorizeComplexity_mem (q : ℚ) :
    categorizeComplexity q ∈ (["low", "medium", "high", "very-high"] : List String) := by
  unfold categorizeComplexity
  split_ifs <;> simp

/-- C10: for every task — including empty or malformed text and absent
body or labels, all representable inputs of the total embedded analysis,
which therefore cannot throw — the analysis stage returns a complexity
tier in `{low, medium, high, very-high}` and a priority score in [0,1]. -/
theorem analysis_total_tier_priority (issue : Issue)
    (store : List (String × StoredPattern)) (maxAgents : ℤ) (sid : String)
    (now : ℕ) (rng : ℕ → ℚ) :
    (performDeepAnalysis issue store maxAgents sid now rng).complexity.level ∈
        (["low", "medium", "high", "very-high"] : List String) ∧
      0 ≤ (performDeepAnalysis issue store maxAgents sid now rng).priority ∧
      (performDeepAnalysis issue store maxAgents sid now rng).priority ≤ 1 := by
  refine ⟨?_, ?_, ?_⟩
  · show categorizeComplexity _ ∈ _
    exact categorizeComplexity_mem _
  · exact (assessPriority_bounds issue).1
  · exact (assessPriority_bounds issue).2

/-- C5 (code evaluated at the failing input): a stored pattern agreeing
with the issue on domain, complexity tier, every key term and the
category — the best case the similarity computation admits — reaches
only `(0.3 + 0.2 + 0.3 + 0.2) / 4 = 0.25`, so similarities of 0.75 and
0.9 are unattainable and both stored patterns are absent from the
matched list. -/
theorem perfect_match_similarity_quarter :
    calculateSimilarity perfectIssue perfectSignature = some (1/4) ∧
    matchPatterns perfectIssue [("p1", perfectPattern), ("p2", perfectPattern)] = [] := by
  constructor
  · have h1 : simDomainPart perfectIssue perfectSignature = 3/10 := rfl
    have h2 : simCategoryPart perfectIssue perfectSignature = 1/5 := rfl
    have h3 : simComplexityPart perfectIssue perfectSignature =
        some (max 0 (1 - (((2 : ℤ) - (2 : ℤ)).natAbs : ℚ) / 3) * (1/5)) := rfl
    have h4 : simKeyTermsPart perfectIssue perfectSignature =
        some (((2 : ℕ) : ℚ) / ((2 : ℕ) : ℚ) * (3/10)) := rfl
    unfold calculateSimilarity
    rw [h3, h4]
    simp only [h1, h2]
    norm_num
  · exact matchPatterns_always_nil _ _

/-- Closed form of the two `measureConvergence` accumulators over one
insight list. -/
theorem convergenceFold_eq (ins : List Insight) (s : ℚ) (n : ℕ) :
    convergenceFold (s, n) ins =
      (s + ((ins.filter (fun i => i.consensus)).map (fun i => i.confidence)).sum,
        n + ins.length) := by
  induction ins generalizing s n with
  | nil => simp [convergenceFold]
  | cons i t ih =>
      simp only [convergenceFold, List.foldl_cons] at ih ⊢
      rw [ih]
      cases hc : i.consensus <;>
        simp [List.filter_cons, hc, Prod.ext_iff] <;>
        first
          | omega
          | (constructor <;> first | ring | omega)

/-- Closed form of the accumulators over the whole discussion list. -/
theorem convergence_state_eq (ds : List Discussion) (s : ℚ) (n : ℕ) :
    ds.foldl (fun st d => convergenceFold st d.insights) (s, n) =
      (s + (((ds.map (fun d => d.insights)).flatten.filter (fun i => i.consensus)).map
        (fun i => i.confidence)).sum,
        n + ((ds.map (fun d => d.insights)).flatten).length) := by
  induction ds generalizing s n with
  | nil => simp
  | cons d t ih =>
      simp only [List.foldl_cons, convergenceFold_eq, List.map_cons, List.flatten_cons]
      rw [ih]
      simp [List.filter_append, List.map_append, List.sum_append, List.length_append,
        Prod.ext_iff]
      first
        | omega
        | (constructor <;> first | ring | omega)

/-- C6 counterexample: one round with a single consensus insight of
confidence 0.6.  The code returns 0.6 (it divides the summed consensus
confidence by the count of all insights, with no `> 0.7` filter), while
the claimed formula — mean confidence over consensus topics with
confidence above 0.7, else 0.5 — returns 0.5. -/
theorem measureConvergence_spec_counterexample :
    measureConvergence [sampleDiscussion] ≠ measureConvergenceSpec [sampleDiscussion] := by
  norm_num [measureConvergence, measureConvergenceSpec, convergenceFold, sampleDiscussion]

/-- C6 (amended): the convergence score is the sum of the confidences of
all insights flagged `consensus` (no confidence filter), divided by the
number of all insights of all rounds, and 0.5 exactly when there are no
insights at all. -/
theorem measureConvergence_characterization (ds : List Discussion) :
    measureConvergence ds =
      if ((ds.map (fun d => d.insights)).flatten).length = 0 then 1/2
      else ((((ds.map (fun d => d.insights)).flatten.filter (fun i => i.consensus)).map
        (fun i => i.confidence)).sum) / (((ds.map (fun d => d.insights)).flatten).length : ℚ) := by
  unfold measureConvergence
  rw [convergence_state_eq]
  simp only [zero_add]
  rcases Nat.eq_zero_or_pos ((ds.map (fun d => d.insights)).flatten).length with h | h
  · rw [h]; simp
  · rw [if_pos h, if_neg (by omega)]

/-- C7 counterexample: a solution with code, tests and documentation all
present, assessed under all-zero draws, has maintainability 0.75 < 0.8 —
so exactly one of the seven dimensions is below the threshold — yet the
assessment emits no recommendation at all: the source only ever checks
completeness, testability and documentation. -/
theorem recommendations_missing_dimension_counterexample :
    (assess sampleSolution 0 rngZero).metrics.maintainability < 4/5 ∧
    (assess sampleSolution 0 rngZero).recommendations = [] ∧
    dimensionsBelowThreshold (assess sampleSolution 0 rngZero).metrics = 1 := by
  have hc : jsTruthyStr (some "code") = true := rfl
  have ht : jsTruthyStr (some "tests") = true := rfl
  have hd : jsTruthyStr (some "docs") = true := rfl
  refine ⟨?_, ?_, ?_⟩ <;>
    norm_num [assess, assessCompleteness, assessCorrectness, assessMaintainability,
      assessPerformance, assessSecurity, assessTestability, assessDocumentation,
      generateRecommendations, dimensionsBelowThreshold, sampleSolution, hc, ht, hd,
      rngZero]

/-- C7 (amended): the assessment emits one fixed note for each of the
three dimensions completeness, testability and documentation-quality
that is strictly below 0.8, and nothing for the other four dimensions
whatever their scores: the recommendation count depends only on those
three. -/
theorem generateRecommendations_three_dimensions (m : Metrics) :
    ("Add missing implementation components" ∈ generateRecommendations m ↔
      m.completeness < 4/5) ∧
    ("Improve test coverage and quality" ∈ generateRecommendations m ↔
      m.testability < 4/5) ∧
    ("Enhance documentation and examples" ∈ generateRecommendations m ↔
      m.documentation < 4/5) ∧
    (generateRecommendations m).length =
      (if m.completeness < 4/5 then 1 else 0) + (if m.testability < 4/5 then 1 else 0) +
        (if m.documentation < 4/5 then 1 else 0) := by
  unfold generateRecommendations
  split_ifs <;> simp_all

/-- C8: a submission arriving while the active-session count is at or
above the configured maximum fails immediately with the
capacity-exceeded error, and the orchestrator state — in particular the
set of active sessions — is returned unchanged: the check runs before
any session is created or queued. -/
theorem resolveIssue_capacity_reject (st : OrchState) (oid : String) (n : ℕ)
    (pipeline : OrchState → Except String ResolveSuccess)
    (h : st.activeSessions.length ≥ st.maxConcurrentSessions) :
    resolveIssue st oid n pipeline =
      (st, Except.error "Maximum concurrent sessions reached. Please wait for completion.") := by
  unfold resolveIssue
  rw [if_pos h]

/-- Witness for C8: a state holding one session with a cap of 1 rejects
the next submission and is left unchanged. -/
theorem resolveIssue_capacity_reject_witness :
    sampleOrchState.activeSessions.length ≥ sampleOrchState.maxConcurrentSessions ∧
    resolveIssue sampleOrchState "s2" 11 (fun _ => Except.error "boom") =
      (sampleOrchState,
        Except.error "Maximum concurrent sessions reached. Please wait for completion.") :=
  ⟨by decide, resolveIssue_capacity_reject sampleOrchState "s2" 11 _ (by decide)⟩

/-- C9: for every complexity tier the planned worker count lies in
`[2, maxWorkers]` (for any meaningful cap of at least 2), and whenever
the cap does not bind (`maxWorkers ≥ 8`) the count equals the fixed tier
table low→2, medium→4, high→6, very-high→8. -/
theorem generateStrategy_worker_count (tier : String) (maxW : ℕ) (domain : Option String)
    (h2 : 2 ≤ maxW) :
    2 ≤ (generateStrategy tier maxW domain).agents.length ∧
    (generateStrategy tier maxW domain).agents.length ≤ maxW ∧
    (8 ≤ maxW →
      (tier = "low" → (generateStrategy tier maxW domain).agents.length = 2) ∧
      (tier = "medium" → (generateStrategy tier maxW domain).agents.length = 4) ∧
      (tier = "high" → (generateStrategy tier maxW domain).agents.length = 6) ∧
      (tier = "very-high" → (generateStrategy tier maxW domain).agents.length = 8)) := by
  have hlen : (generateStrategy tier maxW domain).agents.length =
      min (max 2 (complexityToAgentCount tier)) maxW := by
    simp [generateStrategy]
  have hb : complexityToAgentCount tier ≤ 8 := by
    unfold complexityToAgentCount; split_ifs <;> omega
  refine ⟨?_, ?_, ?_⟩
  · rw [hlen]; omega
  · rw [hlen]; omega
  · intro h8
    refine ⟨?_, ?_, ?_, ?_⟩ <;> intro ht <;> subst ht <;> rw [hlen]
    · rw [show complexityToAgentCount "low" = 2 from rfl]; omega
    · rw [show complexityToAgentCount "medium" = 4 from rfl]; omega
    · rw [show complexityToAgentCount "high" = 6 from rfl]; omega
    · rw [show complexityToAgentCount "very-high" = 8 from rfl]; omega

/-- Witness for C9: tier `low` with cap 15 plans exactly 2 workers. -/
theorem generateStrategy_worker_count_witness :
    (generateStrategy "low" 15 none).agents.length = 2 :=
  ((generateStrategy_worker_count "low" 15 none (by norm_num)).2.2 (by norm_num)).1 rfl

/-- C1: `shouldCreatePR` holds exactly when quality score exceeds 0.8,
completeness exceeds 0.9, and at least one artifact file exists; and
`publishToGitHub` attaches a pull request only when PR creation is
enabled and that gate holds (and exactly then, whenever the outbound
comment and PR calls succeed). -/
theorem shouldCreatePR_gate (r : ProcessedResult) (auto : Bool) (n : ℕ) (env : GitHubEnv) :
    (shouldCreatePR r = true ↔
      (r.quality.score > 4/5 ∧ r.quality.completeness > 9/10 ∧
        0 < r.artifacts.files.length)) ∧
    ((publishToGitHub auto n env r).pullRequest.isSome = true →
      auto = true ∧ shouldCreatePR r = true) ∧
    (auto = true → env.commentFails = none →
      (∀ m, env.prAttempt ≠ PRAttempt.failure m) →
      ((publishToGitHub auto n env r).pullRequest.isSome = true ↔
        shouldCreatePR r = true)) := by
  refine ⟨?_, ?_, ?_⟩
  · simp [shouldCreatePR, and_assoc]
  · intro hp
    simp only [publishToGitHub] at hp
    split at hp
    · simp at hp
    · split at hp
      · rename_i hg
        rw [Bool.and_eq_true] at hg
        exact hg
      · simp at hp
  · intro ha hcf hpa
    subst ha
    simp only [publishToGitHub, hcf]
    constructor
    · intro hp
      split at hp
      · rename_i hg
        rw [Bool.and_eq_true] at hg
        exact hg.2
      · simp at hp
    · intro hs
      rw [if_pos (by simp [hs])]
      rcases hps : env.prAttempt with k | _ | m
      · simp
      · simp
      · exact absurd hps (hpa m)

/-- Witness for C1: a result with score 0.9, completeness 0.95 and one
artifact file passes the gate, and a fully successful publish run with
PR creation enabled attaches the pull request exactly then. -/
theorem shouldCreatePR_gate_witness :
    shouldCreatePR sampleProcessedResult = true ∧
    ((publishToGitHub true 5 sampleGitHubEnv sampleProcessedResult).pullRequest.isSome = true ↔
      shouldCreatePR sampleProcessedResult = true) := by
  have h := shouldCreatePR_gate sampleProcessedResult true 5 sampleGitHubEnv
  have hsc : shouldCreatePR sampleProcessedResult = true :=
    h.1.mpr (by norm_num [sampleProcessedResult])
  exact ⟨hsc, h.2.2 rfl rfl (fun m hm => by simp [sampleGitHubEnv] at hm)⟩

end HiveMind
